import Mathlib

/-
Shallow embedding of the quantum_synth backend core
(backend/quantumsynth/{views,tasks,models,serializers}.py).

Audio samples are modelled as rationals (the code works with float32
buffers normalized to [-1, 1]; none of the verified properties depend on
rounding).  External collaborators (librosa decoding, quantumaudio scheme
loading and streaming, the Celery broker) are modelled as an explicit
environment record: the views call them and we quantify over their
outcomes.  numpy conventions that the code relies on are embedded
faithfully: a 2-D array of shape (channels, samples) has
len = channels (its first dimension), and np.mean(axis=0) averages
sample-wise across channels.
-/

namespace QuantumSynth

/-- The five scheme identifiers accepted by the serializer choice field. -/
inductive Scheme where
  | qpam
  | sqpam
  | msqpam
  | qsm
  | mqsm
deriving DecidableEq

/-- Serializer choice parsing: only the five identifiers are valid. -/
def parseScheme : String → Option Scheme
  | "qpam" => some .qpam
  | "sqpam" => some .sqpam
  | "msqpam" => some .msqpam
  | "qsm" => some .qsm
  | "mqsm" => some .mqsm
  | _ => none

def schemeName : Scheme → String
  | .qpam => "qpam"
  | .sqpam => "sqpam"
  | .msqpam => "msqpam"
  | .qsm => "qsm"
  | .mqsm => "mqsm"

/-- Decoded audio as returned by librosa.load(..., mono=False): a 1-D
sample buffer for mono input, or a (channels, samples) 2-D buffer. -/
inductive Decoded where
  | mono (samples : List ℚ)
  | multi (channels : List (List ℚ))
deriving DecidableEq

/-- Python len() of the numpy array: number of samples for a 1-D buffer,
number of channels (the first dimension) for a 2-D buffer. -/
def npLen : Decoded → Nat
  | .mono s => s.length
  | .multi cs => cs.length

/-- views.py quick_process: processed.shape[-1] if len(processed.shape) > 1
else len(processed) — the last-dimension size. -/
def numSamples : Decoded → Nat
  | .mono s => s.length
  | .multi cs => (cs.headD []).length

/-- np.mean(data, axis=0) on a (channels, samples) buffer: sample-wise
average across channels. -/
def meanAcross (cs : List (List ℚ)) : List ℚ :=
  (List.range (cs.headD []).length).map fun i =>
    ((cs.map fun ch => ch.getD i 0).sum) / (cs.length : ℚ)

/-- The channel-collapse step shared by both views: a 2-D buffer is
averaged to mono unless the scheme is one of the multi-channel ones
(mqsm, msqpam). -/
def collapseChannels (scheme : Scheme) : Decoded → Decoded
  | .mono s => .mono s
  | .multi cs =>
      if scheme = .mqsm ∨ scheme = .msqpam then .multi cs
      else .mono (meanAcross cs)

/-- np.clip(x, -1.0, 1.0) on one sample. -/
def clip1 (x : ℚ) : ℚ := max (-1) (min x 1)

/-- np.clip(processed, -1.0, 1.0) element-wise on the whole buffer. -/
def clipDecoded : Decoded → Decoded
  | .mono s => .mono (s.map clip1)
  | .multi cs => .multi (cs.map fun ch => ch.map clip1)

/-- Outcome of quantumaudio.load_scheme(scheme): a usable handle, the
None sentinel, or a raised exception with its message. -/
inductive LoadOutcome where
  | ok
  | returnedNone
  | raises (msg : String)
deriving DecidableEq

/-- The external collaborators, as the views observe them:
librosa.load on the uploaded bytes, quantumaudio.load_scheme, and
quantumaudio.stream(data, scheme=..., shots=...).  A stream exception is
the .error case. -/
structure Env where
  decode : List Nat → Except String (Decoded × Int)
  load : Scheme → LoadOutcome
  stream : Scheme → Int → Decoded → Except String Decoded

/-- An incoming multipart request before validation; fields absent from
the request are none. -/
structure RawRequest where
  audio : Option (List Nat)
  scheme : Option String
  shots : Option Int
  buffer_size : Option Int
  use_patch : Option Int
deriving DecidableEq

/-- The validated_data produced by AudioProcessRequestSerializer. -/
structure ValidatedRequest where
  audioBytes : List Nat
  scheme : Scheme
  shots : Int
  buffer_size : Int
  use_patch : Option Int
deriving DecidableEq

def resolveScheme (r : RawRequest) : Option Scheme :=
  match r.scheme with
  | none => some .qpam
  | some s => parseScheme s

/-- AudioProcessRequestSerializer field validation: audio is a required
file, scheme must be one of the five choices (default qpam), shots must
lie in [1000, 8000] (default 4000), buffer_size must lie in [128, 1024]
(default 256); use_patch is an optional integer.  The result is the list
of invalid field names (serializer.errors keys). -/
def requestErrors (r : RawRequest) : List String :=
  (if r.audio.isNone then ["audio"] else []) ++
  (if (resolveScheme r).isNone then ["scheme"] else []) ++
  (if r.shots.getD 4000 < 1000 ∨ 8000 < r.shots.getD 4000 then ["shots"] else []) ++
  (if r.buffer_size.getD 256 < 128 ∨ 1024 < r.buffer_size.getD 256 then ["buffer_size"]
   else [])

/-- serializer.is_valid() plus validated_data extraction. -/
def validateRequest (r : RawRequest) : Except (List String) ValidatedRequest :=
  match requestErrors r, r.audio, resolveScheme r with
  | [], some a, some sch =>
      .ok ⟨a, sch, r.shots.getD 4000, r.buffer_size.getD 256, r.use_patch⟩
  | errs, _, _ => .error errs

/-- A ProcessedSample row (models.py): the cache table keyed by
(patch, input_hash). -/
structure ProcessedSample where
  patch : Int
  input_hash : String
  output_audio : List Nat
  sample_rate : Int
  duration : ℚ
deriving DecidableEq

/-- A call to quantumaudio.stream made by the synchronous view, recording
the arguments actually passed (data, scheme, shots — no buffer size). -/
structure StreamCall where
  scheme : Scheme
  shots : Int
  data : Decoded
deriving DecidableEq

/-- The arguments of process_quantum_audio.delay(...) in views.py
process_audio: the enqueued Celery task. -/
structure EnqueuedTask where
  data : Decoded
  scheme : Scheme
  shots : Int
  buffer_size : Int
  sample_rate : Int
deriving DecidableEq

/-- HTTP response of the quick_process view: serializer errors (400), a
plain error body with its HTTP status, or the 200 success payload. -/
inductive QuickResponse where
  | validationError (fields : List String)
  | errorMsg (msg : String) (httpStatus : Nat)
  | ok (audio : Decoded) (sample_rate : Int) (samples : Nat)
deriving DecidableEq

/-- HTTP response of the process_audio view: serializer errors (400), a
plain error body with its HTTP status, or the 200 acceptance payload
(task_id, status processing). -/
inductive ProcessResponse where
  | validationError (fields : List String)
  | errorMsg (msg : String) (httpStatus : Nat)
  | accepted
deriving DecidableEq

/-- The try-block of quick_process after validated_data extraction:
decode via librosa, collapse channels, apply the 2048 gate on len(data),
load the scheme, stream, and shape the response.  The second component
records the stream invocation (none when the transform was never
reached).  Note there is no clipping step and no empty-audio check, and
buffer_size is never read. -/
def quickPipeline (env : Env) (audioBytes : List Nat) (scheme : Scheme)
    (shots : Int) : QuickResponse × Option StreamCall :=
  match env.decode audioBytes with
  | .error e => (.errorMsg e 500, none)
  | .ok (data0, sample_rate) =>
      let data := collapseChannels scheme data0
      if npLen data > 2048 then
        (.errorMsg "Audio too long for quick processing. Use /process/ endpoint." 400,
         none)
      else
        match env.load scheme with
        | .raises m =>
            (.errorMsg ("Scheme " ++ schemeName scheme ++ " is not available: " ++ m)
               500, none)
        | .returnedNone =>
            (.errorMsg ("Scheme " ++ schemeName scheme ++ " is not available: Scheme "
                ++ schemeName scheme ++ " is not implemented in quantumaudio") 500,
             none)
        | .ok =>
            match env.stream scheme shots data with
            | .error m => (.errorMsg m 500, some ⟨scheme, shots, data⟩)
            | .ok processed =>
                (.ok processed sample_rate (numSamples processed),
                 some ⟨scheme, shots, data⟩)

/-- views.py quick_process: validate, then run the pipeline on the
validated audio bytes, scheme and shots.  validated_data buffer_size and
use_patch are never read by this view. -/
def quick_process (env : Env) (req : RawRequest) :
    QuickResponse × Option StreamCall :=
  match validateRequest req with
  | .error errs => (.validationError errs, none)
  | .ok v => quickPipeline env v.audioBytes v.scheme v.shots

/-- The try-block of process_audio: decode via librosa, collapse
channels, enqueue the Celery task, return the acceptance payload.  The
second component records the enqueued task. -/
def processPipeline (env : Env) (audioBytes : List Nat) (scheme : Scheme)
    (shots buffer_size : Int) : ProcessResponse × Option EnqueuedTask :=
  match env.decode audioBytes with
  | .error e => (.errorMsg e 500, none)
  | .ok (data0, sample_rate) =>
      let data := collapseChannels scheme data0
      (.accepted, some ⟨data, scheme, shots, buffer_size, sample_rate⟩)

/-- The buffer tuning of views.py process_audio lines 56-57: for the
complex schemes (sqpam, qsm, mqsm) the requested buffer size is clamped
to min(buffer_size, 128); other schemes keep the requested value. -/
def effBuffer (scheme : Scheme) (buffer_size : Int) : Int :=
  if scheme = .sqpam ∨ scheme = .qsm ∨ scheme = .mqsm then
    min buffer_size 128
  else buffer_size

/-- views.py process_audio: validate, clamp buffer_size to at most 128
for the complex schemes (sqpam, qsm, mqsm), then run the pipeline.  The
cache parameter is the ProcessedSample table visible to the view; the
view body never reads it, and never reads validated_data use_patch. -/
def process_audio (env : Env) (cache : List ProcessedSample)
    (req : RawRequest) : ProcessResponse × Option EnqueuedTask :=
  match validateRequest req with
  | .error errs => (.validationError errs, none)
  | .ok v =>
      processPipeline env v.audioBytes v.scheme v.shots
        (effBuffer v.scheme v.buffer_size)

/-- The metadata dictionary of a successful task result. -/
structure TaskMetadata where
  scheme : Scheme
  shots : Int
  buffer_size : Int
  sample_rate : Int
  samples : Nat
  duration : ℚ
deriving DecidableEq

/-- The structured dictionary returned by the Celery task: either
status success with audio and metadata, or status error with a
message. -/
inductive TaskResult where
  | success (audio : Decoded) (metadata : TaskMetadata)
  | error (msg : String)
deriving DecidableEq

/-- tasks.py process_quantum_audio: load the scheme (a load exception or
a None handle is wrapped into a ValueError whose message the outer
handler returns), stream, clip the output element-wise to [-1, 1], and
return the success dictionary; every exception is caught and returned as
the status error dictionary (a zero sample_rate makes the duration
division raise ZeroDivisionError, also caught). -/
def process_quantum_audio (env : Env) (audio_data : Decoded)
    (scheme : Scheme) (shots buffer_size sample_rate : Int) : TaskResult :=
  match env.load scheme with
  | .raises m =>
      .error ("Scheme " ++ schemeName scheme
        ++ " is not available or not implemented: " ++ m)
  | .returnedNone =>
      .error ("Scheme " ++ schemeName scheme
        ++ " is not available or not implemented: Scheme " ++ schemeName scheme
        ++ " returned None - may not be implemented")
  | .ok =>
      match env.stream scheme shots audio_data with
      | .error m => .error m
      | .ok processed =>
          if sample_rate = 0 then .error "division by zero"
          else
            .success (clipDecoded processed)
              ⟨scheme, shots, buffer_size, sample_rate,
               npLen (clipDecoded processed),
               (npLen (clipDecoded processed) : ℚ) / (sample_rate : ℚ)⟩

/-- The executor-level state of a Celery AsyncResult: pending, started,
terminal success carrying the task return value, or terminal failure
carrying the stringified exception. -/
inductive ExecutorState where
  | pending
  | started
  | succeeded (payload : TaskResult)
  | failed (exn : String)
deriving DecidableEq

/-- The JSON body returned by the task_status view. -/
structure StatusResponse where
  task_id : String
  status : String
  result : Option TaskResult
  error : Option String
deriving DecidableEq

/-- views.py task_status: report the executor state; when the executor
reports terminal success, attach the payload only when the payload
itself reports status success, otherwise downgrade to FAILURE with the
embedded error message; executor failure is reported with the exception
message. -/
def task_status (task_id : String) (st : ExecutorState) : StatusResponse :=
  match st with
  | .pending => ⟨task_id, "PENDING", none, none⟩
  | .started => ⟨task_id, "STARTED", none, none⟩
  | .succeeded p =>
      match p with
      | .success a m => ⟨task_id, "SUCCESS", some (.success a m), none⟩
      | .error msg => ⟨task_id, "FAILURE", none, some msg⟩
  | .failed e => ⟨task_id, "FAILURE", none, some e⟩

/-- The writable fields of a patch create or update request. -/
structure PatchInput where
  name : String
  description : String
  scheme : Scheme
  shots : Int
  buffer_size : Int
deriving DecidableEq

/-- A stored QuantumPatch row. -/
structure StoredPatch where
  name : String
  description : String
  scheme : Scheme
  shots : Int
  buffer_size : Int
deriving DecidableEq

/-- QuantumPatchSerializer validation against the model declarations:
the unique=True name field rejects a name already taken by another
patch (existingNames), and the MinValueValidator 1000 /
MaxValueValidator 8000 pair bounds shots.  The result is the list of
invalid field names. -/
def patchErrors (existingNames : List String) (p : PatchInput) : List String :=
  (if p.name ∈ existingNames then ["name"] else []) ++
  (if p.shots < 1000 ∨ 8000 < p.shots then ["shots"] else [])

/-- Patch write (create, or update with existingNames the other patches'
names): on validation success the input fields are stored unmodified;
otherwise the field errors are returned and nothing is written. -/
def patchCreate (existingNames : List String) (p : PatchInput) :
    Except (List String) StoredPatch :=
  match patchErrors existingNames p with
  | [] => .ok ⟨p.name, p.description, p.scheme, p.shots, p.buffer_size⟩
  | errs => .error errs

/-- Every sample of a returned buffer lies in [-1, 1]. -/
def allInRange : Decoded → Prop
  | .mono s => ∀ x ∈ s, -1 ≤ x ∧ x ≤ 1
  | .multi cs => ∀ ch ∈ cs, ∀ x ∈ ch, -1 ≤ x ∧ x ≤ 1

instance : DecidablePred allInRange := fun d => by
  unfold allInRange
  cases d <;> infer_instance

/-- A buffer_size field value the serializer accepts: absent (default
256) or an integer in [128, 1024]. -/
def validBuf : Option Int → Prop
  | none => True
  | some b => 128 ≤ b ∧ b ≤ 1024

/- Concrete collaborator environments used by witnesses and
counterexamples. -/

/-- Decoding always yields one zero sample per uploaded byte at rate
22050; every scheme loads; the transform is the identity. -/
def idEnv : Env where
  decode := fun bs => .ok (.mono (bs.map fun _ => 0), 22050)
  load := fun _ => .ok
  stream := fun _ _ d => .ok d

/-- Like idEnv but the transform emits a sample outside [-1, 1]. -/
def hotEnv : Env where
  decode := fun bs => .ok (.mono (bs.map fun _ => 0), 22050)
  load := fun _ => .ok
  stream := fun _ _ _ => .ok (.mono [2])

/-- Decoding yields an empty mono clip. -/
def emptyEnv : Env where
  decode := fun _ => .ok (.mono [], 22050)
  load := fun _ => .ok
  stream := fun _ _ d => .ok d

/-- A 2049-sample silent channel. -/
def chan2049 : List ℚ := List.replicate 2049 0

/-- Decoding yields a two-channel clip of 2049 samples per channel. -/
def longMultiEnv : Env where
  decode := fun _ => .ok (.multi [chan2049, chan2049], 44100)
  load := fun _ => .ok
  stream := fun _ _ d => .ok d

/-- Decoding yields a mono clip of 2049 samples. -/
def longMonoEnv : Env where
  decode := fun _ => .ok (.mono chan2049, 22050)
  load := fun _ => .ok
  stream := fun _ _ d => .ok d

/-- quantumaudio.load_scheme raises. -/
def raisingEnv : Env where
  decode := fun _ => .ok (.mono [0], 22050)
  load := fun _ => .raises "boom"
  stream := fun _ _ d => .ok d

/-- quantumaudio.stream raises. -/
def streamErrEnv : Env where
  decode := fun _ => .ok (.mono [0], 22050)
  load := fun _ => .ok
  stream := fun _ _ _ => .error "stream failed"

/-- A request carrying a one-byte audio file and no optional fields. -/
def reqBase : RawRequest := ⟨some [0], none, none, none, none⟩

/-- reqBase with use_patch pointing at patch 1. -/
def reqPatch : RawRequest := ⟨some [0], none, none, none, some 1⟩

/-- reqBase with scheme mqsm. -/
def reqMqsm : RawRequest := ⟨some [0], some "mqsm", none, none, none⟩

/-- A cache already holding a row for patch 1. -/
def cacheHit : List ProcessedSample := [⟨1, "abc", [0], 22050, 1⟩]

/-- librosa cannot parse the upload. -/
def badDecodeEnv : Env where
  decode := fun _ => .error "could not parse"
  load := fun _ => .ok
  stream := fun _ _ d => .ok d

/-- A sample metadata record. -/
def md0 : TaskMetadata := ⟨.qpam, 4000, 256, 22050, 0, 0⟩

/- Helper lemmas. -/

lemma validateRequest_error {r : RawRequest} (h : requestErrors r ≠ []) :
    validateRequest r = .error (requestErrors r) := by
  unfold validateRequest
  cases hE : requestErrors r with
  | nil => exact absurd hE h
  | cons e es => cases r.audio <;> cases resolveScheme r <;> rfl

lemma process_audio_ok {env : Env} {cache : List ProcessedSample}
    {req : RawRequest} {v : ValidatedRequest}
    (hv : validateRequest req = .ok v) :
    process_audio env cache req =
      processPipeline env v.audioBytes v.scheme v.shots
        (effBuffer v.scheme v.buffer_size) := by
  unfold process_audio
  rw [hv]

lemma quick_process_ok {env : Env} {req : RawRequest} {v : ValidatedRequest}
    (hv : validateRequest req = .ok v) :
    quick_process env req = quickPipeline env v.audioBytes v.scheme v.shots := by
  unfold quick_process
  rw [hv]

lemma process_audio_err {env : Env} {cache : List ProcessedSample}
    {req : RawRequest} {errs : List String}
    (h : validateRequest req = .error errs) :
    process_audio env cache req = (.validationError errs, none) := by
  unfold process_audio
  rw [h]

lemma quick_process_err {env : Env} {req : RawRequest} {errs : List String}
    (h : validateRequest req = .error errs) :
    quick_process env req = (.validationError errs, none) := by
  unfold quick_process
  rw [h]

lemma processPipeline_buffer {env : Env} {a : List Nat} {sch : Scheme}
    {sh b : Int} {t : EnqueuedTask}
    (h : (processPipeline env a sch sh b).2 = some t) : t.buffer_size = b := by
  unfold processPipeline at h
  split at h
  · simp at h
  · simp at h
    rw [← h]

lemma clip1_range (x : ℚ) : -1 ≤ clip1 x ∧ clip1 x ≤ 1 := by
  unfold clip1
  constructor
  · exact le_max_left _ _
  · exact max_le (by norm_num) (min_le_right _ _)

lemma clipDecoded_range (d : Decoded) : allInRange (clipDecoded d) := by
  cases d with
  | mono s =>
      intro x hx
      obtain ⟨y, _, rfl⟩ := List.mem_map.mp hx
      exact clip1_range y
  | multi cs =>
      intro ch hch x hx
      obtain ⟨ch0, _, rfl⟩ := List.mem_map.mp hch
      obtain ⟨y, _, rfl⟩ := List.mem_map.mp hx
      exact clip1_range y

lemma patchErrors_nil_iff (ns : List String) (p : PatchInput) :
    patchErrors ns p = [] ↔
      (p.name ∉ ns ∧ 1000 ≤ p.shots ∧ p.shots ≤ 8000) := by
  unfold patchErrors
  by_cases h1 : p.name ∈ ns <;>
    by_cases h2 : p.shots < 1000 ∨ 8000 < p.shots <;>
      simp [h1, h2] <;> omega

/-- C3: when the executor reports terminal success but the payload does
not itself report internal success, the status endpoint downgrades the
job to FAILURE with the error message embedded in the payload; a result
payload is attached only when the payload reports status success. -/
theorem c3_status_downgrade :
    (∀ id msg, task_status id (.succeeded (.error msg)) =
        ⟨id, "FAILURE", none, some msg⟩) ∧
    (∀ id p r, (task_status id (.succeeded p)).result = some r →
        ∃ a m, p = TaskResult.success a m ∧ r = p) := by
  constructor
  · intro id msg
    rfl
  · intro id p r h
    cases p with
    | success a m =>
        refine ⟨a, m, rfl, ?_⟩
        simpa [task_status] using h.symm
    | error msg => simp [task_status] at h

/-- C3 witness: concrete downgrade of a succeeded-with-error payload,
and concrete payload attachment for a success payload. -/
theorem c3_status_downgrade_witness :
    task_status "t" (.succeeded (.error "boom")) =
        ⟨"t", "FAILURE", none, some "boom"⟩ ∧
    ∃ a m, TaskResult.success (Decoded.mono []) md0 = TaskResult.success a m ∧
      TaskResult.success (Decoded.mono []) md0 =
        TaskResult.success (Decoded.mono []) md0 :=
  ⟨c3_status_downgrade.1 "t" "boom",
   c3_status_downgrade.2 "t" (TaskResult.success (Decoded.mono []) md0)
     (TaskResult.success (Decoded.mono []) md0) rfl⟩

/-- C6: the effective buffer size handed to the enqueued task is
min(requested, 128) for the complex schemes sqpam, qsm, mqsm — exactly
128 whenever the request exceeds 128 — while qpam and msqpam keep the
requested value unmodified, with 256 as the serializer default when the
field is absent. -/
theorem c6_buffer_clamp (env : Env) (cache : List ProcessedSample)
    (req : RawRequest) (v : ValidatedRequest) (t : EnqueuedTask)
    (hv : validateRequest req = .ok v)
    (ht : (process_audio env cache req).2 = some t) :
    ((v.scheme = .sqpam ∨ v.scheme = .qsm ∨ v.scheme = .mqsm) →
        t.buffer_size = min v.buffer_size 128 ∧
        (128 < v.buffer_size → t.buffer_size = 128)) ∧
    ((v.scheme = .qpam ∨ v.scheme = .msqpam) →
        t.buffer_size = v.buffer_size) ∧
    (req.buffer_size = none → v.buffer_size = 256) := by
  rw [process_audio_ok hv] at ht
  have hb := processPipeline_buffer ht
  refine ⟨?_, ?_, ?_⟩
  · intro hc
    have he : effBuffer v.scheme v.buffer_size = min v.buffer_size 128 := by
      unfold effBuffer
      rw [if_pos hc]
    refine ⟨by rw [hb, he], ?_⟩
    intro h128
    rw [hb, he]
    exact min_eq_right (le_of_lt h128)
  · intro hs
    have hnc : ¬(v.scheme = .sqpam ∨ v.scheme = .qsm ∨ v.scheme = .mqsm) := by
      rcases hs with h | h <;> rw [h] <;> simp
    unfold effBuffer at hb
    rw [if_neg hnc] at hb
    exact hb
  · intro hn
    unfold validateRequest at hv
    split at hv
    · injection hv with hv
      rw [← hv]
      simp [hn]
    · simp at hv

/-- C6 witness: a qsm request asking for buffer 500 is enqueued with
buffer 128. -/
theorem c6_buffer_clamp_witness :
    (⟨Decoded.mono [0], Scheme.qsm, 4000, 128, 22050⟩ : EnqueuedTask).buffer_size
      = 128 :=
  ((c6_buffer_clamp idEnv [] ⟨some [0], some "qsm", none, some 500, none⟩
      ⟨[0], .qsm, 4000, 500, none⟩
      ⟨Decoded.mono [0], Scheme.qsm, 4000, 128, 22050⟩ rfl rfl).1
    (Or.inr (Or.inl rfl))).2 (by norm_num)

/-- C7: the async task always returns a structured status dictionary —
success with audio and metadata or error with a message — and captures
collaborator failures: a scheme that fails to load is reported as a
structured error naming the scheme, and a transform exception is
returned as a structured error with its message; no exception escapes. -/
theorem c7_task_structured (env : Env) (d : Decoded) (sch : Scheme)
    (sh b sr : Int) :
    ((∃ m, process_quantum_audio env d sch sh b sr = .error m) ∨
      (∃ a md, process_quantum_audio env d sch sh b sr = .success a md)) ∧
    (∀ m, env.load sch = .raises m →
        process_quantum_audio env d sch sh b sr =
          .error ("Scheme " ++ schemeName sch
            ++ " is not available or not implemented: " ++ m)) ∧
    (∀ m, env.load sch = .ok → env.stream sch sh d = .error m →
        process_quantum_audio env d sch sh b sr = .error m) := by
  refine ⟨?_, ?_, ?_⟩
  · rcases hl : env.load sch with _ | _ | m
    · rcases hs : env.stream sch sh d with m | p
      · exact Or.inl ⟨m, by simp [process_quantum_audio, hl, hs]⟩
      · by_cases hsr : sr = 0
        · exact Or.inl ⟨"division by zero",
            by simp [process_quantum_audio, hl, hs, hsr]⟩
        · refine Or.inr ⟨clipDecoded p,
            ⟨sch, sh, b, sr, npLen (clipDecoded p),
             (npLen (clipDecoded p) : ℚ) / (sr : ℚ)⟩, ?_⟩
          simp [process_quantum_audio, hl, hs, hsr]
    · exact Or.inl ⟨"Scheme " ++ schemeName sch
        ++ " is not available or not implemented: Scheme " ++ schemeName sch
        ++ " returned None - may not be implemented",
        by simp [process_quantum_audio, hl]⟩
    · exact Or.inl ⟨"Scheme " ++ schemeName sch
        ++ " is not available or not implemented: " ++ m,
        by simp [process_quantum_audio, hl]⟩
  · intro m hm
    simp [process_quantum_audio, hm]
  · intro m h1 h2
    simp [process_quantum_audio, h1, h2]

/-- C7 witness: a load failure and a stream failure each come back as a
structured error dictionary. -/
theorem c7_task_structured_witness :
    process_quantum_audio raisingEnv (Decoded.mono [0]) .qpam 4000 256 22050 =
        .error ("Scheme " ++ schemeName .qpam
          ++ " is not available or not implemented: " ++ "boom") ∧
    process_quantum_audio streamErrEnv (Decoded.mono [0]) .qpam 4000 256 22050 =
        .error "stream failed" :=
  ⟨(c7_task_structured raisingEnv (Decoded.mono [0]) .qpam 4000 256 22050).2.1
      "boom" rfl,
   (c7_task_structured streamErrEnv (Decoded.mono [0]) .qpam 4000 256 22050).2.2
      "stream failed" rfl rfl⟩

/-- C8: a patch write is accepted exactly when the name is not already
taken and the shot count lies in [1000, 8000]; an accepted write stores
the submitted fields unmodified (no clamping), and a rejected write
reports validation errors. -/
theorem c8_patch_validation (ns : List String) (p : PatchInput) :
    ((∃ sp, patchCreate ns p = .ok sp) ↔
      (p.name ∉ ns ∧ 1000 ≤ p.shots ∧ p.shots ≤ 8000)) ∧
    (∀ sp, patchCreate ns p = .ok sp →
      sp.name = p.name ∧ sp.shots = p.shots ∧ sp.scheme = p.scheme ∧
        sp.buffer_size = p.buffer_size) ∧
    (¬(p.name ∉ ns ∧ 1000 ≤ p.shots ∧ p.shots ≤ 8000) →
      ∃ errs, patchCreate ns p = .error errs ∧ errs ≠ []) := by
  unfold patchCreate
  cases hE : patchErrors ns p with
  | nil =>
      refine ⟨?_, ?_, ?_⟩
      · rw [← patchErrors_nil_iff ns p]
        simp [hE]
      · intro sp h
        simp at h
        rw [← h]
        exact ⟨rfl, rfl, rfl, rfl⟩
      · intro hnot
        exact absurd ((patchErrors_nil_iff ns p).mp hE) hnot
  | cons e es =>
      refine ⟨?_, ?_, ?_⟩
      · constructor
        · rintro ⟨sp, h⟩
          simp at h
        · intro hcond
          have := (patchErrors_nil_iff ns p).mpr hcond
          rw [hE] at this
          simp at this
      · intro sp h
        simp at h
      · intro hnot
        exact ⟨e :: es, rfl, by simp⟩

/-- C8 witness: a patch named p2 with 4000 shots is accepted against an
existing patch p1 and stored verbatim; the same input with 900 shots is
rejected with a validation error. -/
theorem c8_patch_validation_witness :
    ((⟨"p2", "", Scheme.qpam, 4000, 256⟩ : StoredPatch).name = "p2" ∧
      (⟨"p2", "", Scheme.qpam, 4000, 256⟩ : StoredPatch).shots = (4000 : Int) ∧
      (⟨"p2", "", Scheme.qpam, 4000, 256⟩ : StoredPatch).scheme = Scheme.qpam ∧
      (⟨"p2", "", Scheme.qpam, 4000, 256⟩ : StoredPatch).buffer_size =
        (256 : Int)) ∧
    (∃ errs, patchCreate ["p1"] ⟨"p2", "", Scheme.qpam, 900, 256⟩ =
        .error errs ∧ errs ≠ []) :=
  ⟨(c8_patch_validation ["p1"] ⟨"p2", "", Scheme.qpam, 4000, 256⟩).2.1
      ⟨"p2", "", Scheme.qpam, 4000, 256⟩ rfl,
   (c8_patch_validation ["p1"] ⟨"p2", "", Scheme.qpam, 900, 256⟩).2.2
      (by simp)⟩

/-- C9: both processing endpoints reject any request whose supplied
buffer_size lies below 128 or above 1024 with a validation error naming
the buffer_size field. -/
theorem c9_buffer_bounds (env : Env) (cache : List ProcessedSample)
    (req : RawRequest) (b : Int)
    (hb : req.buffer_size = some b) (hout : b < 128 ∨ 1024 < b) :
    (∃ errs, (process_audio env cache req).1 = .validationError errs ∧
        "buffer_size" ∈ errs) ∧
    (∃ errs, (quick_process env req).1 = .validationError errs ∧
        "buffer_size" ∈ errs) := by
  have hmem : "buffer_size" ∈ requestErrors req := by
    unfold requestErrors
    rw [hb]
    simp only [Option.getD_some]
    rw [if_pos hout]
    simp
  have hne : requestErrors req ≠ [] := by
    intro h
    rw [h] at hmem
    exact absurd hmem (List.not_mem_nil _)
  have hval := validateRequest_error hne
  constructor
  · exact ⟨requestErrors req, by rw [process_audio_err hval], hmem⟩
  · exact ⟨requestErrors req, by rw [quick_process_err hval], hmem⟩

/-- C9 witness: buffer_size 127 is rejected by both endpoints. -/
theorem c9_buffer_bounds_witness :
    (∃ errs,
        (process_audio idEnv [] ⟨some [0], none, none, some 127, none⟩).1 =
          .validationError errs ∧ "buffer_size" ∈ errs) ∧
    (∃ errs,
        (quick_process idEnv ⟨some [0], none, none, some 127, none⟩).1 =
          .validationError errs ∧ "buffer_size" ∈ errs) :=
  c9_buffer_bounds idEnv [] ⟨some [0], none, none, some 127, none⟩ 127 rfl
    (by norm_num)

/-- C1 counterexample: with use_patch = 1 supplied and a cache row for
patch 1 already present, process_audio still enqueues the transform task
and returns the plain acceptance payload — the cached audio is never
returned, and a second identical call behaves identically, so the second
call re-invokes the transform rather than the cache. -/
theorem c1_cache_counterexample :
    (process_audio idEnv cacheHit reqPatch).2 =
        some ⟨Decoded.mono [0], Scheme.qpam, 4000, 256, 22050⟩ ∧
    (process_audio idEnv cacheHit reqPatch).1 = ProcessResponse.accepted ∧
    process_audio idEnv cacheHit reqPatch =
      process_audio idEnv cacheHit reqPatch := by
  exact ⟨by decide, by decide, rfl⟩

/-- C1 amended: the orchestrator never consults the ResultCache — the
response and the enqueued task are independent of the cache contents —
and every validated request whose audio decodes successfully enqueues
the transform task, whether or not use_patch was supplied. -/
theorem c1_cache_never_consulted (env : Env)
    (cache cache' : List ProcessedSample) (req : RawRequest)
    (v : ValidatedRequest) (d0 : Decoded) (sr : Int) :
    process_audio env cache req = process_audio env cache' req ∧
    (validateRequest req = .ok v → env.decode v.audioBytes = .ok (d0, sr) →
      process_audio env cache req =
        (.accepted,
         some ⟨collapseChannels v.scheme d0, v.scheme, v.shots,
               effBuffer v.scheme v.buffer_size, sr⟩)) := by
  constructor
  · rfl
  · intro hv hd
    rw [process_audio_ok hv]
    unfold processPipeline
    rw [hd]

/-- C1 amended witness: with and without a matching cache row, the same
request produces the same accepted response and enqueued task. -/
theorem c1_cache_never_consulted_witness :
    process_audio idEnv cacheHit reqPatch = process_audio idEnv [] reqPatch ∧
    process_audio idEnv cacheHit reqPatch =
      (.accepted,
       some ⟨collapseChannels Scheme.qpam (Decoded.mono [0]), Scheme.qpam,
             4000, effBuffer Scheme.qpam 256, 22050⟩) :=
  ⟨(c1_cache_never_consulted idEnv cacheHit [] reqPatch
      ⟨[0], .qpam, 4000, 256, none⟩ (Decoded.mono [0]) 22050).1,
   (c1_cache_never_consulted idEnv cacheHit [] reqPatch
      ⟨[0], .qpam, 4000, 256, some 1⟩ (Decoded.mono [0]) 22050).2 rfl rfl⟩

/-- C2 counterexample: the synchronous quick-process path returns the
transform output without clamping — a transform emitting the sample 2
yields a success response whose audio contains 2, which lies outside
[-1, 1]. -/
theorem c2_clip_counterexample :
    (quick_process hotEnv reqBase).1 =
        QuickResponse.ok (Decoded.mono [2]) 22050 1 ∧
    ¬ allInRange (Decoded.mono [2]) := by
  decide

/-- C2 amended: only the asynchronous task clamps its output — every
successful process_quantum_audio result has all samples in [-1, 1];
the synchronous quick-process path returns the transform output as
produced. -/
theorem c2_task_output_clipped (env : Env) (d : Decoded) (sch : Scheme)
    (sh b sr : Int) (a : Decoded) (md : TaskMetadata)
    (h : process_quantum_audio env d sch sh b sr = .success a md) :
    allInRange a := by
  unfold process_quantum_audio at h
  split at h
  · simp at h
  · simp at h
  · split at h
    · simp at h
    · split at h
      · simp at h
      · injection h with h1 h2
        rw [← h1]
        exact clipDecoded_range _

/-- C2 amended witness: the task clamps the out-of-range sample 2 down
to 1, and the returned audio is inside [-1, 1]. -/
theorem c2_task_output_clipped_witness : allInRange (Decoded.mono [1]) :=
  c2_task_output_clipped hotEnv (Decoded.mono [0]) .qpam 4000 256 22050
    (Decoded.mono [1]) ⟨.qpam, 4000, 256, 22050, 1, 1 / 22050⟩
    (by simp [process_quantum_audio, hotEnv, clipDecoded, clip1, npLen])

/-- C4 counterexample: a clip that decodes to zero samples raises no
EmptyAudio error — quick_process hands the empty buffer straight to the
transform and returns a success response. -/
theorem c4_empty_counterexample :
    (quick_process emptyEnv reqBase).2 =
        some ⟨Scheme.qpam, 4000, Decoded.mono []⟩ ∧
    (quick_process emptyEnv reqBase).1 =
        QuickResponse.ok (Decoded.mono []) 22050 0 := by
  decide

/-- C4 amended: a codec parse failure surfaces as the caught exception
message with HTTP 500 (there is no distinct UnsupportedFormat error
type), and there is no empty-audio check: a zero-length decoded clip
passes the size gate and is handed to the transform whenever the scheme
loads. -/
theorem c4_no_empty_check (env : Env) (req : RawRequest)
    (v : ValidatedRequest) (sr : Int) :
    (∀ m, validateRequest req = .ok v → env.decode v.audioBytes = .error m →
        quick_process env req = (.errorMsg m 500, none)) ∧
    (validateRequest req = .ok v →
      env.decode v.audioBytes = .ok (.mono [], sr) →
      env.load v.scheme = .ok →
      (quick_process env req).2 = some ⟨v.scheme, v.shots, .mono []⟩) := by
  constructor
  · intro m hv hd
    rw [quick_process_ok hv]
    unfold quickPipeline
    rw [hd]
  · intro hv hd hl
    rw [quick_process_ok hv]
    unfold quickPipeline
    rw [hd]
    simp only [collapseChannels, npLen, List.length_nil, hl]
    rcases env.stream v.scheme v.shots (.mono []) with m | p <;> simp

/-- C4 witness: an unparseable upload becomes a 500 error response; an
empty decode reaches the transform. -/
theorem c4_no_empty_check_witness :
    quick_process badDecodeEnv reqBase = (.errorMsg "could not parse" 500, none) ∧
    (quick_process emptyEnv reqBase).2 =
        some ⟨Scheme.qpam, 4000, Decoded.mono []⟩ :=
  ⟨(c4_no_empty_check badDecodeEnv reqBase ⟨[0], .qpam, 4000, 256, none⟩ 0).1
      "could not parse" rfl rfl,
   (c4_no_empty_check emptyEnv reqBase ⟨[0], .qpam, 4000, 256, none⟩ 22050).2
      rfl rfl rfl⟩

/-- C5 counterexample: a two-channel clip of 2049 samples per channel
under the multi-channel scheme mqsm is not rejected — len(data) is the
channel count 2, so the request passes the gate and is processed even
though its sample count 2049 exceeds 2048. -/
theorem c5_gate_counterexample :
    (quick_process longMultiEnv reqMqsm).1 =
        QuickResponse.ok (Decoded.multi [chan2049, chan2049]) 44100 2049 ∧
    2048 < numSamples (Decoded.multi [chan2049, chan2049]) := by
  have hlen : chan2049.length = 2049 := by
    unfold chan2049
    exact List.length_replicate _ _
  have hv : validateRequest reqMqsm = .ok ⟨[0], .mqsm, 4000, 256, none⟩ := by rfl
  rw [quick_process_ok hv]
  simp [quickPipeline, longMultiEnv, collapseChannels, npLen, numSamples, hlen]

/-- C5 amended: the gate compares len(data); when the buffer handed to
the gate is mono — always the case after collapsing, i.e. except for
2-D buffers kept by the multi-channel schemes mqsm and msqpam — the
request is rejected with the boundary error exactly when the sample
count exceeds 2048, so 2049 mono samples are rejected and 2048 are
accepted. -/
theorem c5_mono_gate (env : Env) (req : RawRequest) (v : ValidatedRequest)
    (d0 : Decoded) (sr : Int) (s : List ℚ)
    (hv : validateRequest req = .ok v)
    (hd : env.decode v.audioBytes = .ok (d0, sr))
    (hc : collapseChannels v.scheme d0 = .mono s) :
    ((quick_process env req).1 =
        .errorMsg "Audio too long for quick processing. Use /process/ endpoint."
          400
      ↔ 2048 < s.length) := by
  rw [quick_process_ok hv]
  unfold quickPipeline
  rw [hd]
  simp only [hc, npLen]
  by_cases h : 2048 < s.length
  · simp [h]
  · rw [if_neg (by omega)]
    simp only [h, iff_false]
    rcases env.load v.scheme with _ | _ | m
    · rcases env.stream v.scheme v.shots (.mono s) with m | p <;> simp
    · simp
    · simp

/-- C5 witness: a mono clip of 2049 samples hits the gate exactly
because 2049 exceeds 2048. -/
theorem c5_mono_gate_witness :
    ((quick_process longMonoEnv reqBase).1 =
        .errorMsg "Audio too long for quick processing. Use /process/ endpoint."
          400
      ↔ 2048 < chan2049.length) :=
  c5_mono_gate longMonoEnv reqBase ⟨[0], .qpam, 4000, 256, none⟩
    (.mono chan2049) 22050 chan2049 rfl rfl rfl

/-- C10 counterexample: two quick-process requests identical except for
the buffer_size value (127 vs 256) produce different responses — the
serializer rejects the first with a validation error while the second
is processed. -/
theorem c10_buffer_counterexample :
    quick_process idEnv ⟨some [0], none, none, some 127, none⟩ ≠
      quick_process idEnv ⟨some [0], none, none, some 256, none⟩ := by
  decide

/-- C10 amended: among requests the serializer accepts (buffer_size
absent or within [128, 1024]), the quick endpoint does not depend on
buffer_size — two requests identical except for serializer-valid
buffer_size values get identical responses and identical transform
invocations. -/
theorem c10_buffer_noninterference (env : Env) (a : Option (List Nat))
    (s : Option String) (sh : Option Int) (b b' : Option Int)
    (up : Option Int) (hb : validBuf b) (hb' : validBuf b') :
    quick_process env ⟨a, s, sh, b, up⟩ = quick_process env ⟨a, s, sh, b', up⟩ := by
  have seg : ∀ c : Option Int, validBuf c →
      (if Option.getD c 256 < 128 ∨ 1024 < Option.getD c 256
        then ["buffer_size"] else ([] : List String)) = [] := by
    intro c hc
    cases c with
    | none => norm_num
    | some x =>
        obtain ⟨h1, h2⟩ := hc
        simp only [Option.getD_some]
        rw [if_neg (by omega)]
  have hre : requestErrors ⟨a, s, sh, b, up⟩ = requestErrors ⟨a, s, sh, b', up⟩ := by
    simp only [requestErrors, resolveScheme]
    rw [seg b hb, seg b' hb']
  unfold quick_process validateRequest
  rw [hre]
  rcases requestErrors ⟨a, s, sh, b', up⟩ with _ | ⟨e, es⟩
  · rcases a with _ | aa
    · rfl
    · rcases s with _ | str
      · rfl
      · simp only [resolveScheme]
        rcases parseScheme str with _ | sch
        · rfl
        · rfl
  · rfl

/-- C10 witness: buffer_size 130 and 1024 give identical responses. -/
theorem c10_buffer_noninterference_witness :
    quick_process idEnv ⟨some [0], none, none, some 130, none⟩ =
      quick_process idEnv ⟨some [0], none, none, some 1024, none⟩ :=
  c10_buffer_noninterference idEnv (some [0]) none none (some 130) (some 1024)
    none ⟨by norm_num, by norm_num⟩ ⟨by norm_num, by norm_num⟩

end QuantumSynth
